import Mathlib

/-!
Verification of the BET Tracker equipment session and access-control engine.

The definitions below are a shallow embedding of the operator dashboard
logic (`UserDashboard` component: `handleNumericInput`,
`isValidNumericInput`, `fetchEquipment`, `fetchCurrentSession`,
`startCharging`, `stopCharging`, `recordBatterySwap`,
`fetchTotalSwapCount`) and of the storage schema declared by the
`charging_logs` migration.  Database tables are lists of typed rows;
inserts append, updates map over rows; timestamps are naturals.
-/

namespace BET

/-- A character admitted by the sanitizer's character class `[\d.]`
(`value.replace(/[^\d.]/g, '')` keeps exactly these). -/
def isDigitOrDot (c : Char) : Bool := c.isDigit || c == '.'

/-- JS `String.prototype.trim()`: strip leading and trailing whitespace. -/
def jsTrim (s : String) : String :=
  (((s.toList.dropWhile Char.isWhitespace).reverse.dropWhile Char.isWhitespace).reverse).asString

/-- Matcher for the regex `/^\d*\.?\d*$/` used by `isValidNumericInput`:
a (possibly empty) run of digits, then optionally a single `'.'` followed
by a (possibly empty) run of digits, and nothing else.  The greedy scan
is complete for this pattern: if the leading digit run is consumed
maximally, the only way to continue is a literal dot. -/
def matchesNumericCore (l : List Char) : Bool :=
  match l.dropWhile Char.isDigit with
  | [] => true
  | c :: cs => c == '.' && cs.all Char.isDigit

/-- `/^\d*\.?\d*$/.test(value)`. -/
def matchesNumericRe (s : String) : Bool :=
  matchesNumericCore s.toList

/-- Source `isValidNumericInput` (UserDashboard):
`if (value === '') return true; return /^\d*\.?\d*$/.test(value);` -/
def isValidNumericInput (value : String) : Bool :=
  if value = "" then true else matchesNumericRe value

/-- JS `String.prototype.split('.')`: the chunks between occurrences of
`'.'` (always at least one chunk; `n` dots give `n + 1` chunks). -/
def splitOnDot : List Char → List (List Char)
  | [] => [[]]
  | c :: cs =>
    let ps := splitOnDot cs
    if c == '.' then [] :: ps
    else (c :: ps.headD []) :: ps.tail

/-- Source `handleNumericInput` (UserDashboard): strip every character
that is not a digit or a dot, then if more than one dot remains keep the
first and delete the rest (`parts[0] + '.' + parts.slice(1).join('')`). -/
def handleNumericInput (value : String) : String :=
  let numericValue := value.toList.filter isDigitOrDot
  let parts := splitOnDot numericValue
  if parts.length > 2 then
    (parts.headD [] ++ '.' :: (parts.drop 1).flatten).asString
  else
    numericValue.asString

/-! ## Data model (from `lib/supabase.ts` interfaces and the migrations) -/

/-- `UserProfile` row (`user_profiles` table): identity, role, location
scoping and the two capability flags read by the dashboard
(`profile.Charging_Access`, `profile.Swapping_Access`). -/
structure UserProfile where
  id : String
  role : String
  location_id : Option String
  is_active : Bool
  Charging_Access : Bool
  Swapping_Access : Bool
  deriving DecidableEq, Repr

/-- `BETRecord` row (`bet_records` table): an equipment unit. -/
structure BETRecord where
  id : String
  location_id : String
  equipment_id : String
  equipment_type : String
  status : String
  deriving DecidableEq, Repr

/-- `ChargingLog` row (`charging_logs` table), with the
`Meter_reading`/`charging_point_id` columns added by the later
migration; `end_time = none` marks an open session. -/
structure ChargingLog where
  id : String
  equipment_id : String
  user_id : String
  location_id : String
  charging_point_id : Option String
  Meter_reading : Option String
  start_time : Nat
  end_time : Option Nat
  deriving DecidableEq, Repr

/-- `SwappingLog` row (`swapping_log` table): one battery-swap event. -/
structure SwappingLog where
  id : Nat
  User_id : String
  location_id : String
  equipment_id : String
  Count : String
  Meter_reading : Option String
  deriving DecidableEq, Repr

/-! ## Queries and operations (from the `UserDashboard` component) -/

/-- `fetchCurrentSession` query: rows of `charging_logs` with
`equipment_id = eq` and `end_time IS NULL`, ordered by `start_time`
descending, `limit 1 maybeSingle` — i.e. the open row with the greatest
`start_time` (the first such row on ties), or `none`. -/
def fetchCurrentSession (logs : List ChargingLog) (equipmentId : String) : Option ChargingLog :=
  (logs.filter (fun r => r.equipment_id == equipmentId && r.end_time == none)).foldl
    (fun acc r =>
      match acc with
      | none => some r
      | some b => if b.start_time < r.start_time then some r else some b)
    none

/-- Equipment-code resolution outcome of `fetchEquipment`:
`maybeSingle` yields the row, `null` (surfaced as the
"Equipment … not found or not accessible" message), or an error when
several rows match (surfaced as "Failed to fetch equipment"); the
missing-parameter branch is "Equipment number is required". -/
inductive ResolveOutcome where
  | found (r : BETRecord)
  | notFound
  | fetchFailed
  | missingNo
  deriving DecidableEq, Repr

/-- Source `fetchEquipment(equipmentNo)`: query `bet_records` with
`.eq('location_id', profile?.location_id)`, `.eq('status','operational')`,
`.eq('equipment_id', equipmentNo)`, `.maybeSingle()`. -/
def fetchEquipment (records : List BETRecord) (profileLocation : Option String)
    (equipmentNo : String) : ResolveOutcome :=
  if equipmentNo = "" then .missingNo
  else
    match records.filter (fun r =>
        some r.location_id == profileLocation && r.status == "operational"
          && r.equipment_id == equipmentNo) with
    | [] => .notFound
    | [r] => .found r
    | _ => .fetchFailed

/-- `fetchTotalSwapCount`: `select count(*) from swapping_log where
equipment_id = eq`. -/
def fetchTotalSwapCount (swaps : List SwappingLog) (equipmentId : String) : Nat :=
  swaps.countP (fun r => r.equipment_id == equipmentId)

/-- Result of a `startCharging` call: the error message set by a failed
guard, or the inserted row returned by `.select().single()`. -/
inductive StartOutcome where
  | err (msg : String)
  | ok (log : ChargingLog)
  deriving DecidableEq, Repr

/-- Source `startCharging` (part_001 lines 290–355).  Guards in source
order: equipment/profile present, `profile.Charging_Access`, non-empty
`selectedChargingPoint`, non-empty `meterReading` (also after `trim()`),
`isValidNumericInput(meterReading)`, then the active-session check, then
the insert.  The session check executes `await fetchCurrentSession()`
(which stores its result with `setCurrentSession`) and then tests
`if (currentSession)`: the `currentSession` const captured by this
closure is not changed by that store within the same call, so the guard
reads the captured component state (`capturedSession`), not the value
just fetched from the ledger. -/
def startCharging (profile : Option UserProfile) (selectedEquipment : Option BETRecord)
    (selectedChargingPoint : String) (meterReading : String)
    (capturedSession : Option ChargingLog) (logs : List ChargingLog)
    (now : Nat) (newId : String) : StartOutcome × List ChargingLog :=
  match selectedEquipment, profile with
  | none, _ => (.err "No equipment selected or user not authenticated", logs)
  | _, none => (.err "No equipment selected or user not authenticated", logs)
  | some equipment, some prof =>
    if !prof.Charging_Access then
      (.err "You do not have permission to start charging", logs)
    else if selectedChargingPoint = "" then
      (.err "Please select a charging point before starting", logs)
    else if meterReading = "" || jsTrim meterReading = "" then
      (.err "Please enter a meter reading before starting", logs)
    else if !isValidNumericInput meterReading then
      (.err "Meter reading must be a valid number", logs)
    else if capturedSession.isSome then
      (.err "Equipment is already charging", logs)
    else
      let newLog : ChargingLog :=
        { id := newId
          equipment_id := equipment.id
          user_id := prof.id
          location_id := equipment.location_id
          charging_point_id := some selectedChargingPoint
          Meter_reading := some meterReading
          start_time := now
          end_time := none }
      (.ok newLog, logs ++ [newLog])

/-- Result of a `stopCharging` call. -/
inductive StopOutcome where
  | err (msg : String)
  | ok
  deriving DecidableEq, Repr

/-- Source `stopCharging` (part_001 lines 357–391): guards on the
captured `currentSession` state and `profile.Charging_Access`, then
`update({ end_time: now }).eq('id', currentSession.id)` — the update is
keyed on the session row's `id` and sets only `end_time`; no check of
the stored `end_time` is made. -/
def stopCharging (profile : Option UserProfile) (capturedSession : Option ChargingLog)
    (logs : List ChargingLog) (now : Nat) : StopOutcome × List ChargingLog :=
  match capturedSession, profile with
  | none, _ => (.err "No active charging session or user not authenticated", logs)
  | _, none => (.err "No active charging session or user not authenticated", logs)
  | some session, some prof =>
    if !prof.Charging_Access then
      (.err "You do not have permission to stop charging", logs)
    else
      (.ok, logs.map (fun r => if r.id = session.id then { r with end_time := some now } else r))

/-- Result of a `recordBatterySwap` call. -/
inductive SwapOutcome where
  | err (msg : String)
  | ok
  deriving DecidableEq, Repr

/-- Source `recordBatterySwap` (part_001 lines 393–454): guards on
equipment/profile presence, `profile.Swapping_Access`, and the meter
reading (non-empty and numerically valid); then inserts one
`swapping_log` row with `Count: '1'` tagged with the equipment's
location.  No location-match comparison between the profile and the
equipment appears in the function. -/
def recordBatterySwap (profile : Option UserProfile) (selectedEquipment : Option BETRecord)
    (swapMeterReading : String) (swaps : List SwappingLog)
    (newId : Nat) : SwapOutcome × List SwappingLog :=
  match selectedEquipment, profile with
  | none, _ => (.err "No equipment selected or user not authenticated", swaps)
  | _, none => (.err "No equipment selected or user not authenticated", swaps)
  | some equipment, some prof =>
    if !prof.Swapping_Access then
      (.err "You do not have permission to record battery swaps", swaps)
    else if swapMeterReading = "" || jsTrim swapMeterReading = "" then
      (.err "Please enter a meter reading before recording swap", swaps)
    else if !isValidNumericInput swapMeterReading then
      (.err "Meter reading must be a valid number", swaps)
    else
      (.ok, swaps ++ [{ id := newId
                        User_id := prof.id
                        location_id := equipment.location_id
                        equipment_id := equipment.id
                        Count := "1"
                        Meter_reading := some swapMeterReading }])

/-! ## Storage schema of `charging_logs`
(migration `20251022084500_create_charging_logs.sql`) -/

/-- The row-uniqueness constraints the migration declares on
`charging_logs`: `id uuid PRIMARY KEY` is the only uniqueness
constraint.  The four secondary indexes (`idx_charging_logs_equipment`,
`_user`, `_location`, `_start_time`) are created with plain
`CREATE INDEX`, not `CREATE UNIQUE INDEX`, and no partial unique index
on `equipment_id WHERE end_time IS NULL` appears anywhere in the
migrations. -/
def chargingLogsSchemaOk (rows : List ChargingLog) : Prop :=
  (rows.map (·.id)).Nodup

instance (rows : List ChargingLog) : Decidable (chargingLogsSchemaOk rows) := by
  unfold chargingLogsSchemaOk; infer_instance

/-- Number of open (`end_time IS NULL`) `charging_logs` rows for one
equipment unit — the quantity the core invariant bounds by 1. -/
def openSessionCount (logs : List ChargingLog) (equipmentId : String) : Nat :=
  logs.countP (fun r => r.equipment_id == equipmentId && r.end_time == none)

/-! ## Helper lemmas about the string functions -/

theorem isDigit_ne_dot {c : Char} (h : c.isDigit = true) : c ≠ '.' := by
  intro hc
  rw [hc] at h
  exact absurd h (by decide)

theorem toList_asString (l : List Char) : (l.asString).toList = l := rfl

theorem asString_toList (s : String) : s.toList.asString = s := rfl

/-- The greedy matcher recognises exactly the strings whose characters
are digits or dots with at most one dot — the language of
`/^\d*\.?\d*$/`. -/
theorem matchesNumericCore_iff (l : List Char) :
    matchesNumericCore l = true ↔
      (∀ c ∈ l, isDigitOrDot c = true) ∧ l.count '.' ≤ 1 := by
  induction l with
  | nil => simp [matchesNumericCore]
  | cons a t ih =>
    by_cases ha : a.isDigit = true
    · have had : a ≠ '.' := isDigit_ne_dot ha
      have h1 : matchesNumericCore (a :: t) = matchesNumericCore t := by
        unfold matchesNumericCore
        rw [List.dropWhile_cons, if_pos ha]
      rw [h1, ih]
      constructor
      · rintro ⟨h2, h3⟩
        refine ⟨?_, ?_⟩
        · intro c hc
          rcases List.mem_cons.mp hc with rfl | hc
          · simp [isDigitOrDot, ha]
          · exact h2 c hc
        · simpa [List.count_cons, had] using h3
      · rintro ⟨h2, h3⟩
        refine ⟨fun c hc => h2 c (List.mem_cons_of_mem a hc), ?_⟩
        simpa [List.count_cons, had] using h3
    · have hb : a.isDigit = false := by simpa using ha
      have h1 : matchesNumericCore (a :: t) = (a == '.' && t.all Char.isDigit) := by
        unfold matchesNumericCore
        rw [List.dropWhile_cons, if_neg (by simp [hb])]
      by_cases hdot : a = '.'
      · subst hdot
        rw [h1]
        simp only [beq_self_eq_true, Bool.true_and]
        constructor
        · intro hall
          have hall' : ∀ c ∈ t, c.isDigit = true := by
            simpa [List.all_eq_true] using hall
          refine ⟨?_, ?_⟩
          · intro c hc
            rcases List.mem_cons.mp hc with rfl | hc
            · simp [isDigitOrDot]
            · simp [isDigitOrDot, hall' c hc]
          · have : ('.' : Char) ∉ t := fun hmem =>
              isDigit_ne_dot (hall' _ hmem) rfl
            simp [List.count_cons, List.count_eq_zero.mpr this]
        · rintro ⟨h2, h3⟩
          have hnot : ('.' : Char) ∉ t := by
            intro hmem
            have := List.count_pos_iff.mpr hmem
            simp [List.count_cons] at h3
            omega
          simp only [List.all_eq_true]
          intro c hc
          have := h2 c (List.mem_cons_of_mem _ hc)
          rcases (by simpa [isDigitOrDot] using this : c.isDigit = true ∨ c = '.') with h | h
          · exact h
          · exact absurd (h ▸ hc) hnot
      · rw [h1]
        constructor
        · intro h
          simp [hdot] at h
        · rintro ⟨h2, -⟩
          have := h2 a (List.mem_cons_self a t)
          simp [isDigitOrDot, hb, hdot] at this

theorem matchesNumericRe_iff (s : String) :
    matchesNumericRe s = true ↔
      (∀ c ∈ s.toList, isDigitOrDot c = true) ∧ s.toList.count '.' ≤ 1 :=
  matchesNumericCore_iff s.toList

theorem isDigitOrDot_not_ws {c : Char} (h : isDigitOrDot c = true) :
    c.isWhitespace = false := by
  by_contra hw
  have hw' : c.isWhitespace = true := by simpa using hw
  have hc : ((c = ' ' ∨ c = '\t') ∨ c = '\x0d') ∨ c = '\n' := by
    simpa [Char.isWhitespace] using hw'
  rcases hc with ((rfl | rfl) | rfl) | rfl <;> exact absurd h (by decide)

theorem dropWhile_eq_self_of_all {p : Char → Bool} {l : List Char}
    (h : ∀ c ∈ l, p c = false) : l.dropWhile p = l := by
  cases l with
  | nil => rfl
  | cons a t => simp [List.dropWhile_cons, h a (List.mem_cons_self a t)]

theorem jsTrim_eq_self {s : String} (h : ∀ c ∈ s.toList, c.isWhitespace = false) :
    jsTrim s = s := by
  unfold jsTrim
  rw [dropWhile_eq_self_of_all h,
    dropWhile_eq_self_of_all (fun c hc => h c (List.mem_reverse.mp hc)),
    List.reverse_reverse, asString_toList]

theorem splitOnDot_ne_nil (l : List Char) : splitOnDot l ≠ [] := by
  cases l with
  | nil => simp [splitOnDot]
  | cons c cs =>
    by_cases h : c == '.' <;> simp [splitOnDot, h]

/-- When the head is not a dot, `splitOnDot` prepends it to the first chunk. -/
theorem splitOnDot_cons_ne_dot {c : Char} (cs : List Char) {p : List Char}
    {rest : List (List Char)} (hb : (c == '.') = false)
    (hps : splitOnDot cs = p :: rest) :
    splitOnDot (c :: cs) = (c :: p) :: rest := by
  simp [splitOnDot, hb, hps]

theorem length_splitOnDot (l : List Char) :
    (splitOnDot l).length = l.count '.' + 1 := by
  induction l with
  | nil => simp [splitOnDot]
  | cons c cs ih =>
    by_cases h : c = '.'
    · subst h
      simp [splitOnDot, List.count_cons, ih]
    · have hb : (c == '.') = false := by simpa using h
      cases hps : splitOnDot cs with
      | nil => exact absurd hps (splitOnDot_ne_nil cs)
      | cons p rest =>
        rw [splitOnDot_cons_ne_dot cs hb hps]
        have ihlen : (p :: rest).length = cs.count '.' + 1 := hps ▸ ih
        simp only [List.length_cons] at ihlen ⊢
        rw [List.count_cons]
        simp only [beq_iff_eq]
        rw [if_neg h]
        omega

theorem headD_splitOnDot (l : List Char) :
    (splitOnDot l).headD [] = l.takeWhile (fun c => !(c == '.')) := by
  induction l with
  | nil => simp [splitOnDot]
  | cons c cs ih =>
    by_cases h : (c == '.') = true
    · simp [splitOnDot, h, List.takeWhile_cons]
    · have hb : (c == '.') = false := by simpa using h
      cases hps : splitOnDot cs with
      | nil => exact absurd hps (splitOnDot_ne_nil cs)
      | cons p rest =>
        rw [splitOnDot_cons_ne_dot cs hb hps]
        have ih' : p = cs.takeWhile (fun c => !(c == '.')) := by
          simpa [hps] using ih
        simp [List.takeWhile_cons, hb, ih']

theorem flatten_splitOnDot (l : List Char) :
    (splitOnDot l).flatten = l.filter (fun c => !(c == '.')) := by
  induction l with
  | nil => simp [splitOnDot]
  | cons c cs ih =>
    by_cases h : (c == '.') = true
    · simp [splitOnDot, h, List.filter_cons, ih]
    · have hb : (c == '.') = false := by simpa using h
      cases hps : splitOnDot cs with
      | nil => exact absurd hps (splitOnDot_ne_nil cs)
      | cons p rest =>
        rw [splitOnDot_cons_ne_dot cs hb hps]
        have ih' : p ++ rest.flatten = cs.filter (fun c => !(c == '.')) := by
          simpa [hps] using ih
        simp [List.filter_cons, hb, ih']

theorem drop_one_flatten_splitOnDot (l : List Char) :
    ((splitOnDot l).drop 1).flatten
      = ((l.dropWhile (fun c => !(c == '.'))).drop 1).filter (fun c => !(c == '.')) := by
  induction l with
  | nil => simp [splitOnDot]
  | cons c cs ih =>
    by_cases h : (c == '.') = true
    · simp [splitOnDot, h, List.dropWhile_cons, flatten_splitOnDot]
    · have hb : (c == '.') = false := by simpa using h
      cases hps : splitOnDot cs with
      | nil => exact absurd hps (splitOnDot_ne_nil cs)
      | cons p rest =>
        rw [splitOnDot_cons_ne_dot cs hb hps]
        have ih' : rest.flatten
            = ((cs.dropWhile (fun c => !(c == '.'))).drop 1).filter (fun c => !(c == '.')) := by
          simpa [hps] using ih
        simp [List.dropWhile_cons, hb, ih']

/-- Every character of the sanitizer's output is a digit or a dot, and
at most one dot survives. -/
theorem handleNumericInput_spec (s : String) :
    (∀ c ∈ (handleNumericInput s).toList, isDigitOrDot c = true) ∧
      (handleNumericInput s).toList.count '.' ≤ 1 := by
  unfold handleNumericInput
  have hnvall : ∀ c ∈ s.toList.filter isDigitOrDot, isDigitOrDot c = true :=
    fun c hc => List.of_mem_filter hc
  by_cases hlen : (splitOnDot (s.toList.filter isDigitOrDot)).length > 2
  · simp only [hlen, if_pos, toList_asString]
    have hAeq := headD_splitOnDot (s.toList.filter isDigitOrDot)
    have hBeq := drop_one_flatten_splitOnDot (s.toList.filter isDigitOrDot)
    rw [hAeq, hBeq]
    set nv := s.toList.filter isDigitOrDot with hnv
    set A := nv.takeWhile (fun c => !(c == '.')) with hA
    set B := ((nv.dropWhile (fun c => !(c == '.'))).drop 1).filter
      (fun c => !(c == '.')) with hB
    have hAmem : ∀ c ∈ A, c ∈ nv := fun c hc =>
      (List.takeWhile_sublist _).subset hc
    have hAdot : ∀ c ∈ A, c ≠ '.' := by
      intro c hc
      have := List.mem_takeWhile_imp hc
      simpa using this
    have hBmem : ∀ c ∈ B, c ∈ nv := by
      intro c hc
      have h1 : c ∈ (nv.dropWhile (fun c => !(c == '.'))).drop 1 :=
        List.mem_of_mem_filter hc
      have h2 : c ∈ nv.dropWhile (fun c => !(c == '.')) :=
        (List.drop_sublist _ _).subset h1
      exact (List.dropWhile_sublist _).subset h2
    have hBdot : ∀ c ∈ B, c ≠ '.' := by
      intro c hc
      have := List.of_mem_filter hc
      simpa using this
    constructor
    · intro c hc
      rcases List.mem_append.mp hc with hc | hc
      · exact hnvall c (hAmem c hc)
      · rcases List.mem_cons.mp hc with rfl | hc
        · decide
        · exact hnvall c (hBmem c hc)
    · have hcA : A.count '.' = 0 :=
        List.count_eq_zero.mpr (fun hmem => hAdot _ hmem rfl)
      have hcB : B.count '.' = 0 :=
        List.count_eq_zero.mpr (fun hmem => hBdot _ hmem rfl)
      rw [List.count_append, hcA, List.count_cons]
      simp [hcB]
  · rw [if_neg hlen]
    simp only [toList_asString]
    refine ⟨hnvall, ?_⟩
    have := length_splitOnDot (s.toList.filter isDigitOrDot)
    omega

/-- A string already made of digits and at most one dot passes through
the sanitizer unchanged. -/
theorem handleNumericInput_eq_self {t : String}
    (hall : ∀ c ∈ t.toList, isDigitOrDot c = true)
    (hcount : t.toList.count '.' ≤ 1) : handleNumericInput t = t := by
  unfold handleNumericInput
  rw [List.filter_eq_self.mpr hall]
  have hlen := length_splitOnDot t.toList
  rw [if_neg (by omega)]
  exact asString_toList t

/-! ## The meter-reading gate -/

/-- The meter-reading acceptance test as `startCharging` and
`recordBatterySwap` perform it: reject when the string is empty (also
after `trim()`), then require `isValidNumericInput`. -/
def meterReadingAccepted (s : String) : Bool :=
  if s = "" || jsTrim s = "" then false else isValidNumericInput s

theorem meterReadingAccepted_parts {s : String}
    (h : meterReadingAccepted s = true) :
    ¬(s = "" ∨ jsTrim s = "") ∧ isValidNumericInput s = true := by
  unfold meterReadingAccepted at h
  by_cases hc : s = "" ∨ jsTrim s = ""
  · rw [if_pos (by simpa using hc)] at h
    exact absurd h (by simp)
  · rw [if_neg (by simpa using hc)] at h
    exact ⟨hc, h⟩

theorem meterReadingAccepted_iff (s : String) :
    meterReadingAccepted s = true ↔ s ≠ "" ∧ matchesNumericRe s = true := by
  constructor
  · intro h
    obtain ⟨hc, hv⟩ := meterReadingAccepted_parts h
    push_neg at hc
    refine ⟨hc.1, ?_⟩
    unfold isValidNumericInput at hv
    rwa [if_neg hc.1] at hv
  · rintro ⟨hne, hmatch⟩
    have hall : ∀ c ∈ s.toList, isDigitOrDot c = true :=
      ((matchesNumericRe_iff s).mp hmatch).1
    have htrim : jsTrim s = s :=
      jsTrim_eq_self (fun c hc => isDigitOrDot_not_ws (hall c hc))
    unfold meterReadingAccepted
    rw [if_neg (by rw [htrim]; simpa using hne)]
    unfold isValidNumericInput
    rw [if_neg hne]
    exact hmatch

/-! ## Concrete fixtures (spec §8 scenario: users U1/U2, equipment
EQ-001 at location L1) -/

/-- U1: an active operator at location L1 with both access flags. -/
def sampleProfile : UserProfile :=
  { id := "u1", role := "user", location_id := some "L1", is_active := true
    Charging_Access := true, Swapping_Access := true }

/-- U2: a second operator at the same location with charging access. -/
def sampleProfile2 : UserProfile :=
  { id := "u2", role := "user", location_id := some "L1", is_active := true
    Charging_Access := true, Swapping_Access := true }

/-- EQ-001: operational equipment at location L1. -/
def sampleEquipment : BETRecord :=
  { id := "eq1", location_id := "L1", equipment_id := "EQ-001"
    equipment_type := "tug", status := "operational" }

/-- S1: the open session created by U1 on EQ-001 at time 5. -/
def sampleOpenSession : ChargingLog :=
  { id := "s1", equipment_id := "eq1", user_id := "u1", location_id := "L1"
    charging_point_id := some "P1", Meter_reading := some "1000"
    start_time := 5, end_time := none }

/-- An admin assigned to location LA with swapping access. -/
def sampleAdminA : UserProfile :=
  { id := "a1", role := "admin", location_id := some "LA", is_active := true
    Charging_Access := true, Swapping_Access := true }

/-- Operational equipment belonging to the other location LB. -/
def sampleEquipmentB : BETRecord :=
  { id := "eqB", location_id := "LB", equipment_id := "EQ-B"
    equipment_type := "loader", status := "operational" }

/-! ## Claim theorems -/

/-- Claim C10: for every input string, the sanitizer
`handleNumericInput` produces an output that the validator
`isValidNumericInput` accepts (the output contains only digits and at
most one decimal point), and `handleNumericInput` is idempotent. -/
theorem handleNumericInput_valid_and_idempotent (s : String) :
    isValidNumericInput (handleNumericInput s) = true ∧
      handleNumericInput (handleNumericInput s) = handleNumericInput s := by
  obtain ⟨hall, hcount⟩ := handleNumericInput_spec s
  refine ⟨?_, handleNumericInput_eq_self hall hcount⟩
  unfold isValidNumericInput
  by_cases he : handleNumericInput s = ""
  · rw [if_pos he]
  · rw [if_neg he]
    exact (matchesNumericRe_iff _).mpr ⟨hall, hcount⟩

/-- Witness for C10 at the concrete input `"a1.2b.3"`. -/
theorem handleNumericInput_valid_and_idempotent_witness :
    isValidNumericInput (handleNumericInput "a1.2b.3") = true ∧
      handleNumericInput (handleNumericInput "a1.2b.3")
        = handleNumericInput "a1.2b.3" :=
  handleNumericInput_valid_and_idempotent "a1.2b.3"

/-- Claim C4: the meter-reading validation accepts exactly the
non-empty strings matching `^\d*\.?\d*$`; `"123"` and `"123.45"` pass,
while `""`, `"12.3.4"`, `"abc"` and `"-5"` make `startCharging` and
`recordBatterySwap` fail with the respective validation message before
any write (the ledger is returned unchanged). -/
theorem meter_validation_accepts_exactly_nonempty_numeric :
    (∀ s : String,
      meterReadingAccepted s = true ↔ s ≠ "" ∧ matchesNumericRe s = true) ∧
    meterReadingAccepted "123" = true ∧
    meterReadingAccepted "123.45" = true ∧
    (∀ (logs : List ChargingLog) (now : Nat) (i : String),
      startCharging (some sampleProfile) (some sampleEquipment) "P1" "" none logs now i
        = (.err "Please enter a meter reading before starting", logs)) ∧
    (∀ (logs : List ChargingLog) (now : Nat) (i : String) (s : String),
      s = "12.3.4" ∨ s = "abc" ∨ s = "-5" →
      startCharging (some sampleProfile) (some sampleEquipment) "P1" s none logs now i
        = (.err "Meter reading must be a valid number", logs)) ∧
    (∀ (swaps : List SwappingLog) (i : Nat),
      recordBatterySwap (some sampleProfile) (some sampleEquipment) "" swaps i
        = (.err "Please enter a meter reading before recording swap", swaps)) ∧
    (∀ (swaps : List SwappingLog) (i : Nat) (s : String),
      s = "12.3.4" ∨ s = "abc" ∨ s = "-5" →
      recordBatterySwap (some sampleProfile) (some sampleEquipment) s swaps i
        = (.err "Meter reading must be a valid number", swaps)) := by
  refine ⟨meterReadingAccepted_iff, by decide, by decide, ?_, ?_, ?_, ?_⟩
  · intro logs now i
    rfl
  · rintro logs now i s (rfl | rfl | rfl) <;> rfl
  · intro swaps i
    rfl
  · rintro swaps i s (rfl | rfl | rfl) <;> rfl

/-- Witness for C4 at the concrete rejected input `"abc"` on an empty
ledger. -/
theorem meter_validation_witness :
    meterReadingAccepted "123" = true ∧
    startCharging (some sampleProfile) (some sampleEquipment) "P1" "abc" none [] 0 "s1"
      = (.err "Meter reading must be a valid number", []) :=
  ⟨meter_validation_accepts_exactly_nonempty_numeric.2.1,
    meter_validation_accepts_exactly_nonempty_numeric.2.2.2.2.1 [] 0 "s1" "abc"
      (Or.inr (Or.inl rfl))⟩

/-- Claim C5: with the component's session view synchronized to the
ledger, `startCharging` evaluates its preconditions in a fixed order,
each failure yielding its distinct outcome and stopping evaluation —
(1) charging access, else the permission message; (2) a non-empty
charging point, else the charging-point message (even when the meter
reading is also bad); (3) a present and numerically valid meter
reading, else the meter message (even when a session is open); (4) no
open session, else the conflict message; only when all four pass is the
row inserted. -/
theorem startCharging_precondition_order
    (prof : UserProfile) (equipment : BETRecord) (point meter : String)
    (captured : Option ChargingLog) (logs : List ChargingLog) (now : Nat) (i : String)
    (hsync : captured = fetchCurrentSession logs equipment.id) :
    (prof.Charging_Access = false →
      startCharging (some prof) (some equipment) point meter captured logs now i
        = (.err "You do not have permission to start charging", logs)) ∧
    (prof.Charging_Access = true → point = "" →
      startCharging (some prof) (some equipment) point meter captured logs now i
        = (.err "Please select a charging point before starting", logs)) ∧
    (prof.Charging_Access = true → point ≠ "" →
      (meter = "" ∨ jsTrim meter = "") →
      startCharging (some prof) (some equipment) point meter captured logs now i
        = (.err "Please enter a meter reading before starting", logs)) ∧
    (prof.Charging_Access = true → point ≠ "" →
      ¬(meter = "" ∨ jsTrim meter = "") → isValidNumericInput meter = false →
      startCharging (some prof) (some equipment) point meter captured logs now i
        = (.err "Meter reading must be a valid number", logs)) ∧
    (prof.Charging_Access = true → point ≠ "" →
      ¬(meter = "" ∨ jsTrim meter = "") → isValidNumericInput meter = true →
      fetchCurrentSession logs equipment.id ≠ none →
      startCharging (some prof) (some equipment) point meter captured logs now i
        = (.err "Equipment is already charging", logs)) ∧
    (prof.Charging_Access = true → point ≠ "" →
      ¬(meter = "" ∨ jsTrim meter = "") → isValidNumericInput meter = true →
      fetchCurrentSession logs equipment.id = none →
      startCharging (some prof) (some equipment) point meter captured logs now i
        = (.ok { id := i, equipment_id := equipment.id, user_id := prof.id
                 location_id := equipment.location_id
                 charging_point_id := some point, Meter_reading := some meter
                 start_time := now, end_time := none },
           logs ++ [{ id := i, equipment_id := equipment.id, user_id := prof.id
                      location_id := equipment.location_id
                      charging_point_id := some point, Meter_reading := some meter
                      start_time := now, end_time := none }])) := by
  refine ⟨?_, ?_, ?_, ?_, ?_, ?_⟩
  · intro h1
    simp [startCharging, h1]
  · intro h1 h2
    simp [startCharging, h1, h2]
  · intro h1 h2 h3
    rcases h3 with h3 | h3 <;> simp [startCharging, h1, h2, h3]
  · intro h1 h2 h3 h4
    push_neg at h3
    simp [startCharging, h1, h2, h3.1, h3.2, h4]
  · intro h1 h2 h3 h4 h5
    push_neg at h3
    have hcap : captured.isSome = true := by
      rw [hsync]
      exact Option.isSome_iff_ne_none.mpr h5
    simp [startCharging, h1, h2, h3.1, h3.2, h4, hcap]
  · intro h1 h2 h3 h4 h5
    push_neg at h3
    have hcap : captured = none := by rw [hsync, h5]
    simp [startCharging, h1, h2, h3.1, h3.2, h4, hcap]

/-- Witness for C5: the all-preconditions-pass case at concrete inputs
(U1 starts EQ-001 on point P1 with reading 1000 against an empty
ledger). -/
theorem startCharging_precondition_order_witness :
    startCharging (some sampleProfile) (some sampleEquipment) "P1" "1000" none [] 5 "s1"
      = (.ok sampleOpenSession, [sampleOpenSession]) := by
  have h := startCharging_precondition_order sampleProfile sampleEquipment
    "P1" "1000" none [] 5 "s1" rfl
  exact h.2.2.2.2.2 rfl (by decide) (by decide) (by decide) rfl

/-- Claim C1 (failing input): the ledger holds an open session for
EQ-001, but the component's captured `currentSession` is stale (`none`
— the session was opened after the last render).  `startCharging`
executes its re-fetch yet branches on the captured value, so instead of
returning the conflict outcome "Equipment is already charging" it
inserts a second row and leaves the ledger with two open sessions for
the same equipment. -/
theorem startCharging_stale_recheck_inserts_second_open_session :
    fetchCurrentSession [sampleOpenSession] sampleEquipment.id = some sampleOpenSession ∧
    (startCharging (some sampleProfile2) (some sampleEquipment) "P1" "1050" none
        [sampleOpenSession] 7 "s2").1 ≠ .err "Equipment is already charging" ∧
    openSessionCount
      (startCharging (some sampleProfile2) (some sampleEquipment) "P1" "1050" none
        [sampleOpenSession] 7 "s2").2 sampleEquipment.id = 2 := by
  decide

/-- The ledger produced by two back-to-back `startCharging` inserts for
EQ-001, each made while the caller's captured view was still `none`. -/
def doubleStartLedger : List ChargingLog :=
  (startCharging (some sampleProfile2) (some sampleEquipment) "P1" "1001" none
    (startCharging (some sampleProfile) (some sampleEquipment) "P1" "1000" none
      [] 5 "s1").2 6 "s2").2

/-- Claim C2 (failing input): two `startCharging` calls for the same
equipment both pass the application check (each sees a stale `none`
view, as concurrent callers would) and both inserts succeed; the
resulting ledger has two `end_time IS NULL` rows for EQ-001 and still
satisfies every uniqueness constraint the migration declares on
`charging_logs` (only the `id` primary key) — no partial unique index
on `equipment_id WHERE end_time IS NULL` exists to reject the second
insert. -/
theorem charging_logs_schema_admits_double_open :
    (startCharging (some sampleProfile) (some sampleEquipment) "P1" "1000" none
      [] 5 "s1").1
      = .ok { id := "s1", equipment_id := "eq1", user_id := "u1"
              location_id := "L1", charging_point_id := some "P1"
              Meter_reading := some "1000", start_time := 5, end_time := none } ∧
    (startCharging (some sampleProfile2) (some sampleEquipment) "P1" "1001" none
      (startCharging (some sampleProfile) (some sampleEquipment) "P1" "1000" none
        [] 5 "s1").2 6 "s2").1
      = .ok { id := "s2", equipment_id := "eq1", user_id := "u2"
              location_id := "L1", charging_point_id := some "P1"
              Meter_reading := some "1001", start_time := 6, end_time := none } ∧
    chargingLogsSchemaOk doubleStartLedger ∧
    openSessionCount doubleStartLedger "eq1" = 2 := by
  decide

/-- Claim C3 (counterexample): `stopCharging` never inspects the stored
`end_time` and has no "session already closed" outcome.  The first call
seals S1 at time 10; a second call that still holds the session (a
stale view) succeeds again and overwrites `end_time` with 20 — the
claim's conflict outcome never occurs and `end_time` does not stay
unchanged. -/
theorem stopCharging_double_call_overwrites_end_time :
    stopCharging (some sampleProfile) (some sampleOpenSession) [sampleOpenSession] 10
      = (.ok, [{ sampleOpenSession with end_time := some 10 }]) ∧
    stopCharging (some sampleProfile) (some sampleOpenSession)
        [{ sampleOpenSession with end_time := some 10 }] 20
      = (.ok, [{ sampleOpenSession with end_time := some 20 }]) := by
  decide

/-- Claim C3 (amended): `stopCharging` checks only the component's
captured `currentSession`, not the stored `end_time`.  The first call
on the session's row seals it; a second call issued after the component
cleared its state (`captured = none`) fails with "No active charging
session or user not authenticated" and leaves the ledger untouched,
while a second call that still captures the session re-runs the update
and overwrites `end_time` with the later timestamp. -/
theorem stopCharging_checks_captured_state_only
    (prof : UserProfile) (session : ChargingLog) (t1 t2 : Nat)
    (hacc : prof.Charging_Access = true) :
    stopCharging (some prof) (some session) [session] t1
      = (.ok, [{ session with end_time := some t1 }]) ∧
    stopCharging (some prof) none [{ session with end_time := some t1 }] t2
      = (.err "No active charging session or user not authenticated",
          [{ session with end_time := some t1 }]) ∧
    stopCharging (some prof) (some session) [{ session with end_time := some t1 }] t2
      = (.ok, [{ session with end_time := some t2 }]) := by
  refine ⟨?_, rfl, ?_⟩ <;> simp [stopCharging, hacc]

/-- Witness for the amended C3 at concrete inputs (U1 stops S1 at time
10, repeats at time 20). -/
theorem stopCharging_checks_captured_state_only_witness :
    stopCharging (some sampleProfile) (some sampleOpenSession) [sampleOpenSession] 10
      = (.ok, [{ sampleOpenSession with end_time := some 10 }]) ∧
    stopCharging (some sampleProfile) none
        [{ sampleOpenSession with end_time := some 10 }] 20
      = (.err "No active charging session or user not authenticated",
          [{ sampleOpenSession with end_time := some 10 }]) ∧
    stopCharging (some sampleProfile) (some sampleOpenSession)
        [{ sampleOpenSession with end_time := some 10 }] 20
      = (.ok, [{ sampleOpenSession with end_time := some 20 }]) :=
  stopCharging_checks_captured_state_only sampleProfile sampleOpenSession 10 20 rfl

/-- Claim C6: a permitted `stopCharging` updates exactly the rows whose
`id` equals the captured session's `id` — selection is by session id,
not equipment id — setting `end_time` to the stop time; every row with
a different `id` is returned unchanged at its position, and the sealed
row keeps its `start_time`, `user_id`, `equipment_id`, `location_id`,
`charging_point_id` and `Meter_reading`. -/
theorem stopCharging_updates_only_target_row
    (prof : UserProfile) (session : ChargingLog) (logs : List ChargingLog) (now : Nat)
    (hacc : prof.Charging_Access = true) :
    (stopCharging (some prof) (some session) logs now).1 = .ok ∧
    (stopCharging (some prof) (some session) logs now).2.length = logs.length ∧
    (∀ (j : Nat) (r : ChargingLog), logs[j]? = some r →
      (r.id ≠ session.id →
        (stopCharging (some prof) (some session) logs now).2[j]? = some r) ∧
      (r.id = session.id →
        (stopCharging (some prof) (some session) logs now).2[j]?
          = some { r with end_time := some now })) := by
  have hres : (stopCharging (some prof) (some session) logs now).2
      = logs.map (fun r => if r.id = session.id then { r with end_time := some now } else r) := by
    simp [stopCharging, hacc]
  refine ⟨by simp [stopCharging, hacc], by rw [hres]; simp, ?_⟩
  intro j r hj
  rw [hres]
  constructor
  · intro hne
    rw [List.getElem?_map, hj]
    simp [hne]
  · intro heq
    rw [List.getElem?_map, hj]
    simp [heq]

/-- Witness for C6: U1 stops S1 on a two-row ledger; the other row
(id `"s0"`) is untouched, S1 is sealed in place. -/
theorem stopCharging_updates_only_target_row_witness :
    (stopCharging (some sampleProfile) (some sampleOpenSession)
      [{ sampleOpenSession with id := "s0", end_time := some 4 }, sampleOpenSession] 10).1
      = .ok ∧
    (stopCharging (some sampleProfile) (some sampleOpenSession)
      [{ sampleOpenSession with id := "s0", end_time := some 4 }, sampleOpenSession] 10).2[0]?
      = some { sampleOpenSession with id := "s0", end_time := some 4 } ∧
    (stopCharging (some sampleProfile) (some sampleOpenSession)
      [{ sampleOpenSession with id := "s0", end_time := some 4 }, sampleOpenSession] 10).2[1]?
      = some { sampleOpenSession with end_time := some 10 } := by
  have h := stopCharging_updates_only_target_row sampleProfile sampleOpenSession
    [{ sampleOpenSession with id := "s0", end_time := some 4 }, sampleOpenSession] 10 rfl
  refine ⟨h.1, ?_, ?_⟩
  · exact (h.2.2 0 _ rfl).1 (by decide)
  · exact (h.2.2 1 _ rfl).2 rfl

/-- Claim C7: the operator start-flow resolves an equipment code only
to `operational` equipment in the actor's location: any resolved record
has status `operational`, and when every record matching the location
and code is under `maintenance` or `faulty`, resolution reports
not-found even though the code matches. -/
theorem fetchEquipment_operational_gate
    (records : List BETRecord) (loc : Option String) (code : String)
    (hcode : code ≠ "") :
    (∀ r, fetchEquipment records loc code = .found r → r.status = "operational") ∧
    ((∀ r ∈ records, some r.location_id = loc → r.equipment_id = code →
        r.status = "maintenance" ∨ r.status = "faulty") →
      fetchEquipment records loc code = .notFound) := by
  constructor
  · intro r hr
    unfold fetchEquipment at hr
    rw [if_neg hcode] at hr
    cases hm : records.filter (fun r =>
        some r.location_id == loc && r.status == "operational"
          && r.equipment_id == code) with
    | nil => rw [hm] at hr; cases hr
    | cons r₁ rest =>
      cases rest with
      | nil =>
        rw [hm] at hr
        injection hr with h
        subst h
        have hmem : r₁ ∈ records.filter (fun r =>
            some r.location_id == loc && r.status == "operational"
              && r.equipment_id == code) := by
          rw [hm]; exact List.mem_singleton.mpr rfl
        have hp := List.of_mem_filter hmem
        simp only [Bool.and_eq_true, beq_iff_eq] at hp
        exact hp.1.2
      | cons r₂ rest₂ => rw [hm] at hr; cases hr
  · intro hall
    unfold fetchEquipment
    rw [if_neg hcode]
    have hnil : records.filter (fun r =>
        some r.location_id == loc && r.status == "operational"
          && r.equipment_id == code) = [] := by
      rw [List.filter_eq_nil_iff]
      intro a ha hpa
      simp only [Bool.and_eq_true, beq_iff_eq] at hpa
      rcases hall a ha hpa.1.1 hpa.2 with h | h <;>
        (rw [hpa.1.2] at h; exact absurd h (by decide))
    rw [hnil]

/-- Witness for C7: EQ-001 exists at L1 but is `faulty`, so resolution
for the start-flow reports not-found. -/
theorem fetchEquipment_operational_gate_witness :
    fetchEquipment [{ sampleEquipment with status := "faulty" }] (some "L1") "EQ-001"
      = .notFound := by
  have h := fetchEquipment_operational_gate
    [{ sampleEquipment with status := "faulty" }] (some "L1") "EQ-001" (by decide)
  refine h.2 ?_
  intro r hr _ _
  rw [List.mem_singleton] at hr
  subst hr
  exact Or.inr rfl

/-- The `swapping_log` row a successful `recordBatterySwap` inserts. -/
def swapRow (prof : UserProfile) (equipment : BETRecord) (meter : String)
    (i : Nat) : SwappingLog :=
  { id := i, User_id := prof.id, location_id := equipment.location_id
    equipment_id := equipment.id, Count := "1", Meter_reading := some meter }

theorem recordBatterySwap_success (prof : UserProfile) (equipment : BETRecord)
    (meter : String) (swaps : List SwappingLog) (i : Nat)
    (hacc : prof.Swapping_Access = true) (hm : meterReadingAccepted meter = true) :
    recordBatterySwap (some prof) (some equipment) meter swaps i
      = (.ok, swaps ++ [swapRow prof equipment meter i]) := by
  obtain ⟨hc, hv⟩ := meterReadingAccepted_parts hm
  push_neg at hc
  simp [recordBatterySwap, swapRow, hacc, hc.1, hc.2, hv]

/-- `k` back-to-back `recordBatterySwap` calls, each feeding the ledger
the previous call returned (row ids taken from the ledger length). -/
def iterateSwaps (prof : Option UserProfile) (equipment : Option BETRecord)
    (meter : String) : Nat → List SwappingLog → List SwappingLog
  | 0, swaps => swaps
  | k + 1, swaps =>
    iterateSwaps prof equipment meter k
      (recordBatterySwap prof equipment meter swaps swaps.length).2

/-- Claim C8: each successful `recordBatterySwap` appends exactly one
row with `Count = "1"` and changes nothing else; `fetchTotalSwapCount`
counts the rows of that equipment, so `k` sequential successful calls
raise the total from `n` to `n + k` for the target equipment and leave
every other equipment's total unchanged. -/
theorem recordSwap_totalSwaps_adds_k
    (prof : UserProfile) (equipment : BETRecord) (meter : String)
    (hacc : prof.Swapping_Access = true) (hm : meterReadingAccepted meter = true) :
    (∀ (swaps : List SwappingLog) (i : Nat),
      recordBatterySwap (some prof) (some equipment) meter swaps i
        = (.ok, swaps ++ [swapRow prof equipment meter i])) ∧
    (∀ (k : Nat) (swaps : List SwappingLog),
      (iterateSwaps (some prof) (some equipment) meter k swaps).length
        = swaps.length + k) ∧
    (∀ (k : Nat) (swaps : List SwappingLog),
      fetchTotalSwapCount (iterateSwaps (some prof) (some equipment) meter k swaps)
          equipment.id
        = fetchTotalSwapCount swaps equipment.id + k) ∧
    (∀ (k : Nat) (swaps : List SwappingLog) (other : String),
      other ≠ equipment.id →
      fetchTotalSwapCount (iterateSwaps (some prof) (some equipment) meter k swaps)
          other
        = fetchTotalSwapCount swaps other) := by
  have hstep : ∀ swaps : List SwappingLog,
      (recordBatterySwap (some prof) (some equipment) meter swaps swaps.length).2
        = swaps ++ [swapRow prof equipment meter swaps.length] := by
    intro swaps
    rw [recordBatterySwap_success prof equipment meter swaps swaps.length hacc hm]
  refine ⟨fun swaps i => recordBatterySwap_success prof equipment meter swaps i hacc hm,
    ?_, ?_, ?_⟩
  · intro k
    induction k with
    | zero => intro swaps; simp [iterateSwaps]
    | succ n ih =>
      intro swaps
      simp only [iterateSwaps, hstep]
      rw [ih]
      simp
      omega
  · intro k
    induction k with
    | zero => intro swaps; simp [iterateSwaps]
    | succ n ih =>
      intro swaps
      simp only [iterateSwaps, hstep]
      rw [ih]
      simp [fetchTotalSwapCount, List.countP_append, List.countP_cons, swapRow]
      omega
  · intro k
    induction k with
    | zero => intro swaps other _; simp [iterateSwaps]
    | succ n ih =>
      intro swaps other hother
      simp only [iterateSwaps, hstep]
      rw [ih _ _ hother]
      have hne : (equipment.id == other) = false := by
        simpa using (Ne.symm hother)
      simp [fetchTotalSwapCount, List.countP_append, List.countP_cons, swapRow, hne]

/-- Witness for C8: three successful swaps for EQ-001 starting from an
empty ledger give a total of 3. -/
theorem recordSwap_totalSwaps_adds_k_witness :
    fetchTotalSwapCount
        (iterateSwaps (some sampleProfile) (some sampleEquipment) "2000" 3 [])
        sampleEquipment.id
      = fetchTotalSwapCount ([] : List SwappingLog) sampleEquipment.id + 3 := by
  have h := recordSwap_totalSwaps_adds_k sampleProfile sampleEquipment "2000"
    rfl (by decide)
  exact h.2.2.1 3 []

/-- Claim C9 (counterexample): an admin assigned to location LA, with
`Swapping_Access = true`, records a swap for equipment belonging to
location LB: `recordBatterySwap` reports success and inserts the row
(tagged with the equipment's location) — no permission denial occurs
despite the location mismatch. -/
theorem recordSwap_cross_location_inserts :
    sampleAdminA.role = "admin" ∧
    sampleAdminA.Swapping_Access = true ∧
    sampleAdminA.location_id ≠ some sampleEquipmentB.location_id ∧
    recordBatterySwap (some sampleAdminA) (some sampleEquipmentB) "2000" [] 7
      = (.ok, [{ id := 7, User_id := "a1", location_id := "LB"
                 equipment_id := "eqB", Count := "1"
                 Meter_reading := some "2000" }]) := by
  decide

/-- Claim C9 (amended): `recordBatterySwap` performs no application-level
location-match check — it gates only on `Swapping_Access` and the meter
reading, so an actor whose location differs from the equipment's still
gets the row inserted and a success outcome. -/
theorem recordSwap_no_location_check
    (prof : UserProfile) (equipment : BETRecord) (meter : String)
    (swaps : List SwappingLog) (i : Nat)
    (hacc : prof.Swapping_Access = true)
    (hm : meterReadingAccepted meter = true)
    (hmis : prof.location_id ≠ some equipment.location_id) :
    recordBatterySwap (some prof) (some equipment) meter swaps i
      = (.ok, swaps ++ [swapRow prof equipment meter i]) :=
  recordBatterySwap_success prof equipment meter swaps i hacc hm

/-- Witness for the amended C9 at the cross-location fixture. -/
theorem recordSwap_no_location_check_witness :
    recordBatterySwap (some sampleAdminA) (some sampleEquipmentB) "2000" [] 7
      = (.ok, [swapRow sampleAdminA sampleEquipmentB "2000" 7]) :=
  recordSwap_no_location_check sampleAdminA sampleEquipmentB "2000" [] 7
    rfl (by decide) (by decide)

end BET
